import Mathlib

set_option maxRecDepth 8192

/-!
Verification of the intent-routing and multi-service orchestration layer of a
Google Workspace natural-language agent.

The development shallowly embeds the Python modules
`google_workspace_agent/llm_client.py` (ConversationContext, GroqLLMClient)
and `google_workspace_agent/integration.py` (WorkspaceIntegration).

Modelling conventions:
- Python/JSON values are the inductive type `JValue` (JSON numbers are
  modelled as integers; no claim depends on float semantics).
- Python exceptions are modelled with `Except Err` where `Err` is the
  exception text (`str(e)`); state (the LLM conversation context) is threaded
  explicitly, so a raising call still reports the state at the raise point.
- External effects - the Groq chat-completion endpoint, `json.loads` /
  `json.dumps`, and the five Google service clients (which live in other
  modules and are only called here) - are fields of an environment record
  `Env`, so every theorem quantifies over their behaviour.
- The mutual recursion `process_natural_language_request ->
  _handle_multi_service_request -> process_natural_language_request` is
  unguarded in the source; it is made total with a fuel parameter, where
  exhausted fuel models the Python recursion limit being hit inside the
  entry point (and caught by its blanket `except Exception`).
-/

/-- Exception text, the `str(e)` of a raised Python exception. -/
abbrev Err := String

/-- JSON / Python values as produced by `json.loads` and passed around the
integration layer.  `null` doubles as Python `None`. -/
inductive JValue where
  | null : JValue
  | bool : Bool → JValue
  | num : Int → JValue
  | str : String → JValue
  | arr : List JValue → JValue
  | obj : List (String × JValue) → JValue
deriving Repr

/-- Python `x == s` for a string literal `s`: true exactly when `x` is that
string (no JSON value of another type compares equal to a `str`). -/
def isStrEq (j : JValue) (s : String) : Bool :=
  match j with
  | .str t => t = s
  | _ => false

/-- Association lookup in a JSON object (Python dict with string keys). -/
def jLookup : List (String × JValue) → String → Option JValue
  | [], _ => none
  | (k, v) :: rest, key => if k = key then some v else jLookup rest key

/-- Lookup with default, the semantics of `dict.get(key, default)` on a dict. -/
def jLookupD (kvs : List (String × JValue)) (key : String) (d : JValue) : JValue :=
  (jLookup kvs key).getD d

/-- The Python type name of a value, used to build faithful exception texts. -/
def pyTypeName : JValue → String
  | .null => "NoneType"
  | .bool _ => "bool"
  | .num _ => "int"
  | .str _ => "str"
  | .arr _ => "list"
  | .obj _ => "dict"

/-- `x.get(key, default)`: succeeds on a dict, raises `AttributeError` on any
other value (as `details.get(...)` does when `details` is not a dict). -/
def pyGet (j : JValue) (key : String) (d : JValue) : Except Err JValue :=
  match j with
  | .obj kvs => .ok (jLookupD kvs key d)
  | other =>
      .error ("AttributeError: \x27" ++ pyTypeName other ++
        "\x27 object has no attribute \x27get\x27")

/-- `x[key]` with a string key: returns the entry of a dict, raises `KeyError`
on a missing key and `TypeError` on a non-dict value. -/
def pyGetItem (j : JValue) (key : String) : Except Err JValue :=
  match j with
  | .obj kvs =>
      match jLookup kvs key with
      | some v => .ok v
      | none => .error ("KeyError: \x27" ++ key ++ "\x27")
  | other =>
      .error ("TypeError: \x27" ++ pyTypeName other ++
        "\x27 object is not subscriptable")

/-- `x.items()`: the key/value pairs of a dict, `AttributeError` otherwise. -/
def pyItems (j : JValue) : Except Err (List (String × JValue)) :=
  match j with
  | .obj kvs => .ok kvs
  | other =>
      .error ("AttributeError: \x27" ++ pyTypeName other ++
        "\x27 object has no attribute \x27items\x27")

mutual
/-- Python `repr` of a JSON-shaped value. -/
def pyRepr : JValue → String
  | .null => "None"
  | .bool true => "True"
  | .bool false => "False"
  | .num n => toString n
  | .str s => "\x27" ++ s ++ "\x27"
  | .arr xs => "[" ++ pyReprList xs ++ "]"
  | .obj kvs => "\x7b" ++ pyReprPairs kvs ++ "\x7d"

/-- Comma-separated `repr`s of list elements. -/
def pyReprList : List JValue → String
  | [] => ""
  | [x] => pyRepr x
  | x :: xs => pyRepr x ++ ", " ++ pyReprList xs

/-- Comma-separated `repr`s of dict entries. -/
def pyReprPairs : List (String × JValue) → String
  | [] => ""
  | [(k, v)] => "\x27" ++ k ++ "\x27: " ++ pyRepr v
  | (k, v) :: kvs => "\x27" ++ k ++ "\x27: " ++ pyRepr v ++ ", " ++ pyReprPairs kvs
end

/-- Python `str` of a JSON-shaped value, as interpolated by an f-string. -/
def pyStr : JValue → String
  | .str s => s
  | other => pyRepr other

/-- One chat message, a `{"role": ..., "content": ...}` dict. -/
structure Msg where
  role : String
  content : String
deriving Repr, DecidableEq

/-- Python list slicing `l[i:]` (negative indices count from the end; note
`l[0:]` is the whole list, which is what `l[-0:]` evaluates to). -/
def pySliceFrom {α : Type} (l : List α) (i : Int) : List α :=
  let start : Int := if i < 0 then max 0 ((l.length : Int) + i) else min (l.length : Int) i
  l.drop start.toNat

/-- `ConversationContext` from `llm_client.py`: the bounded message history.
`max_context_length` is a Python `int` (pydantic field, default 10). -/
structure ConversationContext where
  messages : List Msg
  max_context_length : Int
deriving Repr, DecidableEq

/-- `ConversationContext.add_message`: append, then trim to the last
`max_context_length` entries whenever the length exceeds the bound
(`self.messages = self.messages[-self.max_context_length:]`). -/
def ConversationContext.add_message (ctx : ConversationContext)
    (role content : String) : ConversationContext :=
  let msgs := ctx.messages ++ [⟨role, content⟩]
  if (msgs.length : Int) > ctx.max_context_length then
    { ctx with messages := pySliceFrom msgs (-ctx.max_context_length) }
  else
    { ctx with messages := msgs }

/-- `ConversationContext.clear`. -/
def ConversationContext.clear (ctx : ConversationContext) : ConversationContext :=
  { ctx with messages := [] }

/-- `GroqLLMClient` state: the model name and the conversation context. -/
structure St where
  model : String
  context : ConversationContext
deriving Repr, DecidableEq

/-- The external world as seen by the integration layer: the Groq completion
endpoint (already composed with `response.choices[0].message.content`),
`json.loads` / `json.dumps` together with the text of the `JSONDecodeError`
that a failed parse raises, and the Google service-client methods invoked by
the per-service handlers.  Every function may raise, modelled by `Except`. -/
structure Env where
  complete : List Msg → Except Err String
  loads : String → Option JValue
  loads_err : String → Err
  dumps : JValue → String
  gmail_create_item : JValue → JValue → JValue → Except Err JValue
  gmail_list_items : JValue → JValue → Except Err JValue
  calendar_create_item : JValue → JValue → JValue → JValue → JValue → Except Err JValue
  calendar_list_items : JValue → JValue → JValue → Except Err JValue
  drive_upload_file : JValue → JValue → JValue → Except Err JValue
  drive_list_items : JValue → JValue → Except Err JValue
  sheets_create_item : JValue → JValue → Except Err JValue
  sheets_read_values : JValue → JValue → Except Err JValue
  docs_create_item : JValue → JValue → Except Err JValue
  docs_append_text : JValue → JValue → Except Err JValue

/-- The outgoing message sequence of `GroqLLMClient.generate_response`: the
optional (truthy) system message, then the stored history, then the user
prompt.  Note `if system_message:` is falsy for the empty string. -/
def outgoingMessages (st : St) (prompt : String)
    (system_message : Option String) : List Msg :=
  (match system_message with
   | some sm => if sm = "" then [] else [⟨"system", sm⟩]
   | none => []) ++ st.context.messages ++ [⟨"user", prompt⟩]

/-- `GroqLLMClient.generate_response`: call the completion endpoint on the
outgoing sequence; on success append the user prompt and the answer to the
history and return the answer; on failure re-raise with the history
untouched. -/
def generate_response (env : Env) (st : St) (prompt : String)
    (system_message : Option String) : Except Err String × St :=
  match env.complete (outgoingMessages st prompt system_message) with
  | .error e => (.error e, st)
  | .ok generated_text =>
      let ctx := (st.context.add_message "user" prompt).add_message
        "assistant" generated_text
      (.ok generated_text, { st with context := ctx })

/-- The intent-extraction system prompt of `WorkspaceIntegration._extract_intent`. -/
def intentSystemPrompt : String :=
  "\n        You are an intent extraction assistant for a Google Workspace agent.\n        Extract the following from a user request:\n        - Target service (email, calendar, drive, sheets, docs, or multi)\n        - Specific action (create, read, update, delete, etc.)\n        - Relevant parameters\n        \n        Return a JSON with these details.\n        "

/-- The fallback intent returned when the extraction response is unparseable. -/
def fallbackIntent (request : String) : JValue :=
  .obj [("service", .str "multi"), ("action", .str "interpret"),
        ("details", .str request)]

/-- `WorkspaceIntegration._extract_intent`: ask the model, then `json.loads`
the reply; only `JSONDecodeError` is handled (by the fallback intent), any
exception from the model call propagates. -/
def extract_intent (env : Env) (st : St) (request : String) :
    Except Err JValue × St :=
  match generate_response env st request (some intentSystemPrompt) with
  | (.error e, st1) => (.error e, st1)
  | (.ok response, st1) =>
      match env.loads response with
      | some j => (.ok j, st1)
      | none => (.ok (fallbackIntent request), st1)

/-- A `{status: success, result: v}` dict, the shape every per-service
handler wraps a client return value in. -/
def successResult (v : JValue) : JValue :=
  .obj [("status", .str "success"), ("result", v)]

/-- A `{status: error, message: m}` dict. -/
def errResult (m : String) : JValue :=
  .obj [("status", .str "error"), ("message", .str m)]

/-- `WorkspaceIntegration._handle_email_request`.  The implicit `return None`
at the end of the `if`/`elif` chain is `JValue.null` (Python `None`). -/
def handle_email_request (env : Env) (intent : JValue) : Except Err JValue := do
  let action ← pyGet intent "action" (.str "")
  let details ← pyGet intent "details" (.obj [])
  if isStrEq action "send" then do
    let toArg ← pyGet details "to" (.str "")
    let subject ← pyGet details "subject" (.str "")
    let body ← pyGet details "body" (.str "")
    let r ← env.gmail_create_item toArg subject body
    pure (successResult r)
  else if isStrEq action "read" then do
    let maxResults ← pyGet details "max_results" (.num 10)
    let query ← pyGet details "query" .null
    let r ← env.gmail_list_items maxResults query
    pure (successResult r)
  else
    pure .null

/-- `WorkspaceIntegration._handle_calendar_request`. -/
def handle_calendar_request (env : Env) (intent : JValue) : Except Err JValue := do
  let action ← pyGet intent "action" (.str "")
  let details ← pyGet intent "details" (.obj [])
  if isStrEq action "create" then do
    let summary ← pyGet details "summary" (.str "")
    let startTime ← pyGet details "start_time" .null
    let endTime ← pyGet details "end_time" .null
    let description ← pyGet details "description" .null
    let attendees ← pyGet details "attendees" .null
    let r ← env.calendar_create_item summary startTime endTime description attendees
    pure (successResult r)
  else if isStrEq action "list" then do
    let maxResults ← pyGet details "max_results" (.num 10)
    let timeMin ← pyGet details "time_min" .null
    let timeMax ← pyGet details "time_max" .null
    let r ← env.calendar_list_items maxResults timeMin timeMax
    pure (successResult r)
  else
    pure .null

/-- `WorkspaceIntegration._handle_drive_request`. -/
def handle_drive_request (env : Env) (intent : JValue) : Except Err JValue := do
  let action ← pyGet intent "action" (.str "")
  let details ← pyGet intent "details" (.obj [])
  if isStrEq action "upload" then do
    let localPath ← pyGet details "local_path" (.str "")
    let name ← pyGet details "name" .null
    let parentId ← pyGet details "parent_id" .null
    let r ← env.drive_upload_file localPath name parentId
    pure (successResult r)
  else if isStrEq action "list" then do
    let maxResults ← pyGet details "max_results" (.num 10)
    let query ← pyGet details "query" .null
    let r ← env.drive_list_items maxResults query
    pure (successResult r)
  else
    pure .null

/-- `WorkspaceIntegration._handle_sheets_request`. -/
def handle_sheets_request (env : Env) (intent : JValue) : Except Err JValue := do
  let action ← pyGet intent "action" (.str "")
  let details ← pyGet intent "details" (.obj [])
  if isStrEq action "create" then do
    let title ← pyGet details "title" (.str "")
    let sheets ← pyGet details "sheets" .null
    let r ← env.sheets_create_item title sheets
    pure (successResult r)
  else if isStrEq action "read" then do
    let spreadsheetId ← pyGet details "spreadsheet_id" (.str "")
    let rangeName ← pyGet details "range_name" (.str "")
    let r ← env.sheets_read_values spreadsheetId rangeName
    pure (successResult r)
  else
    pure .null

/-- `WorkspaceIntegration._handle_docs_request`. -/
def handle_docs_request (env : Env) (intent : JValue) : Except Err JValue := do
  let action ← pyGet intent "action" (.str "")
  let details ← pyGet intent "details" (.obj [])
  if isStrEq action "create" then do
    let title ← pyGet details "title" (.str "")
    let content ← pyGet details "content" .null
    let r ← env.docs_create_item title content
    pure (successResult r)
  else if isStrEq action "append" then do
    let documentId ← pyGet details "document_id" (.str "")
    let text ← pyGet details "text" (.str "")
    let r ← env.docs_append_text documentId text
    pure (successResult r)
  else
    pure .null

/-- The decomposition prompt built by `_handle_multi_service_request` from
`intent.get('details', '')`. -/
def breakdownPrompt (details : JValue) : String :=
  "\n        Break down this multi-service request into specific actions:\n        " ++
  pyStr details ++
  "\n        \n        Provide a JSON with a list of actions for each service.\n        "

/-- The system message of the decomposition call. -/
def breakdownSystemMessage : String := "You are a workflow decomposition assistant."

/-- The `{status: error, message: f"Multi-service request processing failed: ..."}`
dict produced by the planner on any exception inside its `try`. -/
def multiFailResult (e : Err) : JValue :=
  errResult ("Multi-service request processing failed: " ++ e)

/-- The fresh sub-intent dict the planner builds for one decomposition entry. -/
def freshIntent (service : String) (action details : JValue) : JValue :=
  .obj [("service", .str service), ("action", action), ("details", details)]

/-- The type of the recursive re-entry used by the planner: the entry point
`process_natural_language_request` itself, partially applied (the fuel
device below instantiates it with one unit of fuel less). -/
abbrev SubRequest := St → String → Except Err JValue × St

/-- The `for service, service_actions in actions.items()` loop of
`_handle_multi_service_request`: build each fresh sub-intent, serialize it
with `json.dumps`, and feed it back through the full entry point `sub`,
collecting `results[service]` in insertion order. -/
def runServices (env : Env) (sub : SubRequest) :
    St → List (String × JValue) → List (String × JValue) →
    Except Err (List (String × JValue)) × St
  | st, [], acc => (.ok acc, st)
  | st, (service, service_actions) :: rest, acc =>
      match pyGet service_actions "action" .null with
      | .error e => (.error e, st)
      | .ok action =>
          match pyGet service_actions "details" (.obj []) with
          | .error e => (.error e, st)
          | .ok details =>
              match sub st (env.dumps (freshIntent service action details)) with
              | (.error e, st1) => (.error e, st1)
              | (.ok r, st1) =>
                  runServices env sub st1 rest (acc ++ [(service, r)])

/-- `WorkspaceIntegration._handle_multi_service_request`: build the
decomposition prompt (outside the `try`, so a raising model call
propagates), then parse the reply and run one sub-request per decomposed
service through the entry point `sub`, catching any exception of that span
as a `Multi-service request processing failed` error result. -/
def handle_multi_service_request (env : Env) (sub : SubRequest) (st : St)
    (intent : JValue) : Except Err JValue × St :=
  match pyGet intent "details" (.str "") with
  | .error e => (.error e, st)
  | .ok details =>
      match generate_response env st (breakdownPrompt details)
          (some breakdownSystemMessage) with
      | (.error e, st1) => (.error e, st1)
      | (.ok breakdown, st1) =>
          match env.loads breakdown with
          | none => (.ok (multiFailResult (env.loads_err breakdown)), st1)
          | some actions =>
              match pyItems actions with
              | .error e => (.ok (multiFailResult e), st1)
              | .ok kvs =>
                  match runServices env sub st1 kvs [] with
                  | (.error e, st2) => (.ok (multiFailResult e), st2)
                  | (.ok results, st2) =>
                      (.ok (.obj [("status", .str "success"),
                                  ("results", .obj results)]), st2)

/-- The dispatch chain of `process_natural_language_request` (lines 63-83 of
`integration.py`): compare `intent['service']` against each known service and
call the matching handler; an unknown service yields an error result.  `sub`
is the entry point the multi-service planner re-invokes per sub-intent. -/
def route (env : Env) (sub : SubRequest) (st : St) (intent : JValue) :
    Except Err JValue × St :=
  match pyGetItem intent "service" with
  | .error e => (.error e, st)
  | .ok service =>
      if isStrEq service "email" then (handle_email_request env intent, st)
      else if isStrEq service "calendar" then (handle_calendar_request env intent, st)
      else if isStrEq service "drive" then (handle_drive_request env intent, st)
      else if isStrEq service "sheets" then (handle_sheets_request env intent, st)
      else if isStrEq service "docs" then (handle_docs_request env intent, st)
      else if isStrEq service "multi" then handle_multi_service_request env sub st intent
      else (.ok (errResult ("Unsupported service: " ++ pyStr service)), st)

/-- `WorkspaceIntegration.process_natural_language_request`: extract the
intent and dispatch, converting any exception into `{status: error,
message: str(e)}`.  The planner's re-entry runs with one unit of fuel less;
fuel `0` models the Python recursion limit being exceeded inside the `try`
block, where the blanket handler catches the `RecursionError`. -/
def process_natural_language_request (env : Env) :
    Nat → St → String → Except Err JValue × St
  | 0, st, _ =>
      (.ok (errResult "maximum recursion depth exceeded"), st)
  | fuel + 1, st, request =>
      match extract_intent env st request with
      | (.error e, st1) => (.ok (errResult e), st1)
      | (.ok intent, st1) =>
          match route env (process_natural_language_request env fuel) st1 intent with
          | (.error e, st2) => (.ok (errResult e), st2)
          | (.ok v, st2) => (.ok v, st2)

/-- Did the entry point return normally (no exception propagated)? -/
def isCaught (p : Except Err JValue × St) : Bool :=
  match p.1 with
  | .ok _ => true
  | .error _ => false

/-- Lookup in a JSON object, `none` on any other value. -/
def jLookupObj (j : JValue) (key : String) : Option JValue :=
  match j with
  | .obj kvs => jLookup kvs key
  | _ => none

/-- The top-level `status` field of a returned result, if any. -/
def bundleStatus (p : Except Err JValue × St) : Option JValue :=
  match p.1 with
  | .ok b => jLookupObj b "status"
  | .error _ => none

/-- The service keys of the `results` mapping of a returned bundle, if any. -/
def bundleResultKeys (p : Except Err JValue × St) : Option (List String) :=
  match p.1 with
  | .ok b =>
      match jLookupObj b "results" with
      | some (.obj rs) => some (rs.map Prod.fst)
      | _ => none
  | .error _ => none

/-- The `status` of one sub-result of a returned bundle, if any. -/
def subResultStatus (p : Except Err JValue × St) (service : String) : Option JValue :=
  match p.1 with
  | .ok b =>
      match jLookupObj b "results" with
      | some (.obj rs) =>
          match jLookup rs service with
          | some sub => jLookupObj sub "status"
          | none => none
      | _ => none
  | .error _ => none

/-- Does every value of the decomposition mapping look like a dict? -/
def allValuesObj (kvs : List (String × JValue)) : Bool :=
  kvs.all fun p =>
    match p.2 with
    | .obj _ => true
    | _ => false

/-- Iterated `add_message` on a fresh context with the given bound, used to
state the history-bound claim. -/
def runAppends (bound : Int) (ms : List (String × String)) : ConversationContext :=
  ms.foldl (fun c p => c.add_message p.1 p.2) ⟨[], bound⟩

/-- The content of the last message of an outgoing sequence (used by the
concrete test oracles below to tell the calls of a scenario apart). -/
def lastContent (msgs : List Msg) : Option String :=
  (msgs.getLast?).map Msg.content

/-- A fresh client state: empty history, the default bound 10, the default
model name. -/
def st0 : St := ⟨"llama2-70b-4096", ⟨[], 10⟩⟩

/-- A neutral environment for concrete scenarios: the model answers an empty
string, nothing parses as JSON, every service call returns `None`. -/
def baseEnv : Env where
  complete := fun _ => .ok ""
  loads := fun _ => none
  loads_err := fun _ => "Expecting value: line 1 column 1 (char 0)"
  dumps := pyRepr
  gmail_create_item := fun _ _ _ => .ok .null
  gmail_list_items := fun _ _ => .ok .null
  calendar_create_item := fun _ _ _ _ _ => .ok .null
  calendar_list_items := fun _ _ _ => .ok .null
  drive_upload_file := fun _ _ _ => .ok .null
  drive_list_items := fun _ _ => .ok .null
  sheets_create_item := fun _ _ => .ok .null
  sheets_read_values := fun _ _ => .ok .null
  docs_create_item := fun _ _ => .ok .null
  docs_append_text := fun _ _ => .ok .null

/-- Scenario environment: the model replies with text that is not JSON. -/
def envC1 : Env := { baseEnv with complete := fun _ => .ok "not json" }

/-- Scenario environment: the completion endpoint raises. -/
def envC9 : Env := { baseEnv with complete := fun _ => .error "groq down" }

/-- Scenario environment: the completion endpoint answers normally. -/
def envC10 : Env := { baseEnv with complete := fun _ => .ok "fine" }

/-- Scenario environment: extraction resolves to an email-send intent and the
mail client raises on `create_item`. -/
def envC2 : Env :=
  { baseEnv with
    complete := fun _ => .ok "I"
    loads := fun _ => some (freshIntent "email" (.str "send") (.obj []))
    gmail_create_item := fun _ _ _ => .error "SMTP connection refused" }

/-- Scenario environment: the mail client returns a sent-message id. -/
def envC5 : Env :=
  { baseEnv with gmail_create_item := fun _ _ _ => .ok (.str "sent-id") }

/-- The email-send intent of the specification scenario. -/
def intentC5 : JValue :=
  .obj [("service", .str "email"), ("action", .str "send"),
        ("details", .obj [("to", .str "team@company.com"),
                          ("subject", .str "Kickoff"),
                          ("body", .str "See you Monday")])]

/-- Scenario environment: the decomposition reply is not JSON. -/
def envC7 : Env := { baseEnv with complete := fun _ => .ok "oops" }

/-- A multi-service intent for the terminal-decomposition-failure scenario. -/
def intentC7 : JValue := .obj [("details", .str "do x")]

/-- The two-service decomposition of the partial-failure scenario: email-send
succeeds, calendar-create raises. -/
def decompositionC3 : JValue :=
  .obj [("email", .obj [("action", .str "send"),
                        ("details", .obj [("to", .str "a")])]),
        ("calendar", .obj [("action", .str "create"), ("details", .obj [])])]

/-- Scenario environment for bundle partial failure: the oracle answers the
decomposition call with a two-service plan, answers each re-extraction call
with the matching single-service intent, the mail client succeeds, and the
calendar client raises. -/
def envC3 : Env :=
  { baseEnv with
    complete := fun msgs =>
      if lastContent msgs = some (breakdownPrompt (.str "book and email")) then .ok "B"
      else if lastContent msgs =
          some (pyRepr (freshIntent "email" (.str "send") (.obj [("to", .str "a")]))) then .ok "E"
      else if lastContent msgs =
          some (pyRepr (freshIntent "calendar" (.str "create") (.obj []))) then .ok "C"
      else .ok "junk"
    loads := fun s =>
      if s = "B" then some decompositionC3
      else if s = "E" then some (freshIntent "email" (.str "send") (.obj [("to", .str "a")]))
      else if s = "C" then some (freshIntent "calendar" (.str "create") (.obj []))
      else none
    gmail_create_item := fun _ _ _ => .ok (.str "sent")
    calendar_create_item := fun _ _ _ _ _ => .error "rate limited" }

/-- The multi-service intent of the partial-failure scenario. -/
def intentC3 : JValue := .obj [("details", .str "book and email")]

/-- Scenario environment: the decomposition reply parses as a JSON list, not
an object. -/
def envC3bad : Env :=
  { baseEnv with
    complete := fun _ => .ok "[1, 2]"
    loads := fun _ => some (.arr [.num 1, .num 2]) }

/-- Scenario environment for the planner re-entry: the oracle answers the
top-level decomposition call with a single email action and everything else
with unparseable text; serialized sub-intents all print as `SUB`, so the
re-extraction of the sub-intent falls back to a multi intent instead of the
constructed email intent. -/
def envC6 : Env :=
  { baseEnv with
    complete := fun msgs =>
      if lastContent msgs = some (breakdownPrompt (.str "do stuff")) then .ok "B"
      else .ok "garbage"
    loads := fun s =>
      if s = "B" then
        some (.obj [("email", .obj [("action", .str "send"),
                                    ("details", .obj [("to", .str "x")])])])
      else none
    dumps := fun _ => "SUB"
    gmail_create_item := fun _ _ _ => .ok (.str "sent-id") }

/-- The multi-service intent of the planner re-entry scenario. -/
def intentC6 : JValue := .obj [("details", .str "do stuff")]

theorem add_message_no_trim (ctx : ConversationContext) (role content : String)
    (h : (ctx.messages.length : Int) + 1 ≤ ctx.max_context_length) :
    ctx.add_message role content =
      { ctx with messages := ctx.messages ++ [⟨role, content⟩] } := by
  have hc : ¬ ((((ctx.messages ++ [(⟨role, content⟩ : Msg)]).length : Int)) >
      ctx.max_context_length) := by
    simp only [List.length_append, List.length_singleton]
    push_cast
    omega
  simp only [ConversationContext.add_message]
  rw [if_neg hc]

theorem runAppends_eq_drop (N : Nat) (hN : 1 ≤ N) (ms : List (String × String)) :
    (runAppends (N : Int) ms).messages =
      (ms.map fun p => (⟨p.1, p.2⟩ : Msg)).drop (ms.length - N) ∧
    (runAppends (N : Int) ms).max_context_length = N := by
  induction ms using List.reverseRecOn with
  | nil => exact ⟨by simp [runAppends], rfl⟩
  | append_singleton ms m ih =>
      obtain ⟨ih1, ih2⟩ := ih
      have hrun : runAppends (N : Int) (ms ++ [m]) =
          (runAppends (N : Int) ms).add_message m.1 m.2 := by
        simp [runAppends, List.foldl_append]
      have hLlen : (ms.map fun p => (⟨p.1, p.2⟩ : Msg)).length = ms.length := by
        simp
      rcases Nat.lt_or_ge ms.length N with h1 | h2
      · -- still below the bound: no trimming
        have hz : ms.length - N = 0 := Nat.sub_eq_zero_of_le (Nat.le_of_lt h1)
        have hmsgs : (runAppends (N : Int) ms).messages =
            ms.map fun p => (⟨p.1, p.2⟩ : Msg) := by
          rw [ih1, hz, List.drop_zero]
        have hlen : ((runAppends (N : Int) ms).messages.length : Int) + 1 ≤
            (runAppends (N : Int) ms).max_context_length := by
          rw [hmsgs, hLlen, ih2]
          omega
        have hz2 : (ms ++ [m]).length - N = 0 := by
          simp only [List.length_append, List.length_singleton]
          omega
        rw [hrun, add_message_no_trim _ _ _ hlen]
        refine ⟨?_, ih2⟩
        rw [hmsgs, hz2, List.drop_zero, List.map_append]
        rfl
      · -- at the bound: the oldest entry is evicted
        have hAlen : (runAppends (N : Int) ms).messages.length = N := by
          rw [ih1, List.length_drop, hLlen]
          omega
        have hcond : ((((runAppends (N : Int) ms).messages ++
            [(⟨m.1, m.2⟩ : Msg)]).length : Int)) >
            (runAppends (N : Int) ms).max_context_length := by
          simp only [List.length_append, List.length_singleton, hAlen, ih2]
          push_cast
          omega
        have hslice : pySliceFrom ((runAppends (N : Int) ms).messages ++
            [(⟨m.1, m.2⟩ : Msg)]) (-((N : Nat) : Int)) =
            ((runAppends (N : Int) ms).messages ++ [(⟨m.1, m.2⟩ : Msg)]).drop 1 := by
          simp only [pySliceFrom]
          have hi : (-((N : Nat) : Int)) < 0 := by
            omega
          rw [if_pos hi]
          congr 1
          simp only [List.length_append, List.length_singleton, hAlen]
          push_cast
          omega
        have hstep : (runAppends (N : Int) ms).add_message m.1 m.2 =
            { runAppends (N : Int) ms with
              messages := ((runAppends (N : Int) ms).messages ++
                [(⟨m.1, m.2⟩ : Msg)]).drop 1 } := by
          simp only [ConversationContext.add_message]
          rw [if_pos hcond, ih2, hslice]
        rw [hrun, hstep]
        refine ⟨?_, ih2⟩
        have hdrop1 : ((runAppends (N : Int) ms).messages ++
            [(⟨m.1, m.2⟩ : Msg)]).drop 1 =
            (runAppends (N : Int) ms).messages.drop 1 ++ [(⟨m.1, m.2⟩ : Msg)] := by
          rw [List.drop_append_of_le_length]
          simp only [hAlen]
          omega
        rw [hdrop1, ih1, List.drop_drop]
        have htgt : ((ms ++ [m]).map fun p => (⟨p.1, p.2⟩ : Msg)).drop
            ((ms ++ [m]).length - N) =
            (ms.map fun p => (⟨p.1, p.2⟩ : Msg)).drop ((ms ++ [m]).length - N) ++
            [(⟨m.1, m.2⟩ : Msg)] := by
          rw [List.map_append, List.drop_append_of_le_length]
          · rfl
          · simp only [List.length_append, List.length_singleton, hLlen]
            omega
        rw [htgt]
        have harg : (ms ++ [m]).length - N = 1 + (ms.length - N) := by
          simp only [List.length_append, List.length_singleton]
          omega
        rw [harg]
        simp [Nat.add_comm]

theorem process_never_propagates (env : Env) (fuel : Nat) (st : St) (request : String) :
    isCaught (process_natural_language_request env fuel st request) = true := by
  cases fuel with
  | zero => rfl
  | succ f =>
      rcases hext : extract_intent env st request with ⟨res, st1⟩
      cases res with
      | error e => simp [process_natural_language_request, hext, isCaught]
      | ok intent =>
          rcases hr : route env (process_natural_language_request env f) st1 intent
            with ⟨res2, st2⟩
          cases res2 with
          | error e => simp [process_natural_language_request, hext, hr, isCaught]
          | ok v => simp [process_natural_language_request, hext, hr, isCaught]

theorem runServices_ok (env : Env) (sub : SubRequest)
    (hsub : ∀ s r, isCaught (sub s r) = true) :
    ∀ (kvs : List (String × JValue)), allValuesObj kvs = true →
    ∀ (st : St) (acc : List (String × JValue)),
    ∃ res st2, runServices env sub st kvs acc = (.ok res, st2) ∧
      res.map Prod.fst = acc.map Prod.fst ++ kvs.map Prod.fst := by
  intro kvs
  induction kvs with
  | nil =>
      intro _ st acc
      exact ⟨acc, st, rfl, by simp [runServices]⟩
  | cons p rest ih =>
      intro hall st acc
      obtain ⟨service, sa⟩ := p
      rw [allValuesObj, List.all_cons, Bool.and_eq_true] at hall
      obtain ⟨hsa, hrest⟩ := hall
      rcases sa with _ | b | n | s | xs | okvs
      · simp at hsa
      · simp at hsa
      · simp at hsa
      · simp at hsa
      · simp at hsa
      ·
        rcases hs : sub st (env.dumps (freshIntent service
            (jLookupD okvs "action" .null) (jLookupD okvs "details" (.obj [])))) with ⟨rres, st1⟩
        cases rres with
        | error e =>
            have hc := hsub st (env.dumps (freshIntent service
              (jLookupD okvs "action" .null) (jLookupD okvs "details" (.obj []))))
            rw [hs] at hc
            simp [isCaught] at hc
        | ok r =>
            obtain ⟨res, st2, heq, hmap⟩ := ih hrest st1 (acc ++ [(service, r)])
            refine ⟨res, st2, ?_, ?_⟩
            · simp only [runServices, pyGet, hs, heq]
            · rw [hmap]
              simp

/-- C1: for every request, if the Completion Provider's reply to the Intent
Extractor does not parse as JSON, `_extract_intent` returns exactly the
fallback intent `{service: multi, action: interpret, details: request}`. -/
theorem extract_intent_unparseable_yields_fallback (env : Env) (st st1 : St)
    (request response : String)
    (hgen : generate_response env st request (some intentSystemPrompt) =
      (.ok response, st1))
    (hparse : env.loads response = none) :
    extract_intent env st request = (.ok (fallbackIntent request), st1) := by
  simp [extract_intent, hgen, hparse]

/-- C1 witness: a model reply of `not json` yields the fallback intent. -/
theorem extract_intent_unparseable_yields_fallback_witness :
    extract_intent envC1 st0 "hello" =
      (.ok (fallbackIntent "hello"),
       ⟨"llama2-70b-4096", ⟨[⟨"user", "hello"⟩, ⟨"assistant", "not json"⟩], 10⟩⟩) :=
  extract_intent_unparseable_yields_fallback envC1 st0
    ⟨"llama2-70b-4096", ⟨[⟨"user", "hello"⟩, ⟨"assistant", "not json"⟩], 10⟩⟩
    "hello" "not json" rfl rfl

/-- C9: if the model call inside `generate_response` raises, the exception is
re-raised and the conversation history is exactly as before the call. -/
theorem generate_response_failure_atomic (env : Env) (st : St)
    (prompt : String) (sm : Option String) (e : Err)
    (h : env.complete (outgoingMessages st prompt sm) = .error e) :
    generate_response env st prompt sm = (.error e, st) := by
  simp [generate_response, h]

/-- C9 witness: a raising completion endpoint leaves the state `st0` intact. -/
theorem generate_response_failure_atomic_witness :
    generate_response envC9 st0 "p" none = (.error "groq down", st0) :=
  generate_response_failure_atomic envC9 st0 "p" none "groq down" rfl

theorem add_message_sublist (ctx : ConversationContext) (role content : String) :
    (ctx.add_message role content).messages.Sublist
      (ctx.messages ++ [⟨role, content⟩]) := by
  simp only [ConversationContext.add_message]
  split
  · simp only [pySliceFrom]
    exact List.drop_sublist _ _
  · exact List.Sublist.refl _

theorem add_message_filter_system_sublist (ctx : ConversationContext)
    (role content : String)
    (hrole : ((⟨role, content⟩ : Msg).role == "system") = false) :
    ((ctx.add_message role content).messages.filter
      (fun m => m.role == "system")).Sublist
      (ctx.messages.filter (fun m => m.role == "system")) := by
  have h1 := (add_message_sublist ctx role content).filter
    (fun m => m.role == "system")
  rw [List.filter_append] at h1
  have hf : (([(⟨role, content⟩ : Msg)] : List Msg).filter
      (fun m => m.role == "system")) = [] := by
    simp [List.filter_singleton, hrole]
  rw [hf, List.append_nil] at h1
  exact h1

/-- C10: for every successful `generate_response` call, the resulting context
is exactly the old one with the user prompt appended and then the assistant
answer appended (the two `add_message` calls, in that order, and nothing
else), and the optional system message is used only to build the outgoing
sequence, never stored: the stored history gains no `system`-role entry,
trimming included. -/
theorem generate_response_appends_exactly_two (env : Env) (st : St)
    (prompt : String) (sm : Option String) (text : String)
    (hok : env.complete (outgoingMessages st prompt sm) = .ok text) :
    generate_response env st prompt sm =
      (.ok text, { st with context :=
        (st.context.add_message "user" prompt).add_message "assistant" text }) ∧
    (((st.context.add_message "user" prompt).add_message "assistant"
        text).messages.filter (fun m => m.role == "system")).Sublist
      (st.context.messages.filter (fun m => m.role == "system")) := by
  constructor
  · simp [generate_response, hok]
  · exact (add_message_filter_system_sublist
        (st.context.add_message "user" prompt) "assistant" text rfl).trans
      (add_message_filter_system_sublist st.context "user" prompt rfl)

/-- C10 witness: a successful call on the empty history stores exactly the
user prompt then the assistant answer, and no system entry. -/
theorem generate_response_appends_exactly_two_witness :
    generate_response envC10 st0 "p" (some "sys") =
      (.ok "fine",
       ⟨"llama2-70b-4096", ⟨[⟨"user", "p"⟩, ⟨"assistant", "fine"⟩], 10⟩⟩) ∧
    (((st0.context.add_message "user" "p").add_message "assistant"
        "fine").messages.filter (fun m => m.role == "system")).Sublist
      (st0.context.messages.filter (fun m => m.role == "system")) :=
  generate_response_appends_exactly_two envC10 st0 "p" (some "sys") "fine" rfl

/-- C4 (amended: for a configured bound N of at least 1): after N+k appends
(k>0) on a fresh context, the stored history is exactly the N most recent
messages in append order. -/
theorem history_bound_fifo (N k : Nat) (hN : 1 ≤ N)
    (ms : List (String × String)) (hlen : ms.length = N + k) (hk : 0 < k) :
    (runAppends (N : Int) ms).messages =
      (ms.map fun p => (⟨p.1, p.2⟩ : Msg)).drop k ∧
    (runAppends (N : Int) ms).messages.length = N := by
  obtain ⟨h1, _⟩ := runAppends_eq_drop N hN ms
  constructor
  · rw [h1]
    congr 1
    omega
  · rw [h1, List.length_drop, List.length_map]
    omega

/-- C4 witness: bound 2, three appends, the first message is evicted. -/
theorem history_bound_fifo_witness :
    (runAppends ((2 : Nat) : Int) [("user", "a"), ("user", "b"), ("user", "c")]).messages =
      [⟨"user", "b"⟩, ⟨"user", "c"⟩] ∧
    (runAppends ((2 : Nat) : Int)
      [("user", "a"), ("user", "b"), ("user", "c")]).messages.length = 2 :=
  history_bound_fifo 2 1 (by decide) [("user", "a"), ("user", "b"), ("user", "c")]
    (by decide) (by decide)

/-- C4 counterexample: with a configured bound of N = 0 (k = 1), the trim
slice `messages[-0:]` is the whole list, so after N+k = 1 appends the stored
history holds 1 entry, not N = 0 as the claim states. -/
theorem history_bound_fails_at_zero :
    (runAppends ((0 : Nat) : Int) [("user", "a")]).messages.length ≠ 0 := by
  decide

/-- C8: a recognized service with an unrecognized action (for email: neither
`send` nor `read`) returns Python `None` (`JValue.null`), not a success or
error result. -/
theorem unknown_email_action_returns_none (env : Env)
    (kvs : List (String × JValue))
    (h1 : isStrEq (jLookupD kvs "action" (.str "")) "send" = false)
    (h2 : isStrEq (jLookupD kvs "action" (.str "")) "read" = false) :
    handle_email_request env (.obj kvs) = .ok .null := by
  simp [handle_email_request, pyGet, h1, h2, bind, Except.bind, pure, Except.pure]

/-- C8 witness: an email intent with action `delete` yields `None`. -/
theorem unknown_email_action_returns_none_witness :
    handle_email_request baseEnv (.obj [("action", .str "delete")]) = .ok .null :=
  unknown_email_action_returns_none baseEnv [("action", .str "delete")] rfl rfl

/-- C2: any exception raised by the dispatch (including a raising Capability
Client call) is caught at the entry point and converted into
`{status: error, message: str(e)}`, and the entry point never propagates an
exception (the second conjunct holds for arbitrary fuel, state and request). -/
theorem entry_point_catches_handler_exceptions (env : Env) (fuel : Nat)
    (st st1 st2 : St) (request : String) (intent : JValue) (e : Err)
    (f : Nat) (s : St) (r : String)
    (hext : extract_intent env st request = (.ok intent, st1))
    (hroute : route env (process_natural_language_request env fuel) st1 intent =
      (.error e, st2)) :
    process_natural_language_request env (fuel + 1) st request =
      (.ok (errResult e), st2) ∧
    isCaught (process_natural_language_request env f s r) = true :=
  ⟨by simp [process_natural_language_request, hext, hroute],
   process_never_propagates env f s r⟩

/-- C2 witness: a raising mail client turns into
`{status: error, message: SMTP connection refused}` without an exception. -/
theorem entry_point_catches_handler_exceptions_witness :
    process_natural_language_request envC2 1 st0 "send it" =
      (.ok (errResult "SMTP connection refused"),
       ⟨"llama2-70b-4096", ⟨[⟨"user", "send it"⟩, ⟨"assistant", "I"⟩], 10⟩⟩) ∧
    isCaught (process_natural_language_request envC2 0 st0 "x") = true :=
  entry_point_catches_handler_exceptions envC2 0 st0
    ⟨"llama2-70b-4096", ⟨[⟨"user", "send it"⟩, ⟨"assistant", "I"⟩], 10⟩⟩
    ⟨"llama2-70b-4096", ⟨[⟨"user", "send it"⟩, ⟨"assistant", "I"⟩], 10⟩⟩
    "send it" (freshIntent "email" (.str "send") (.obj [])) "SMTP connection refused"
    0 st0 "x" rfl rfl

/-- C5 counterexample: the email handler wraps the client value under the key
`result`, not `payload`: the returned dict has no `payload` entry. -/
theorem success_payload_key_absent :
    handle_email_request envC5 intentC5 =
      .ok (.obj [("status", .str "success"), ("result", .str "sent-id")]) ∧
    jLookupObj (.obj [("status", .str "success"), ("result", .str "sent-id")])
      "payload" = none ∧
    jLookupObj (.obj [("status", .str "success"), ("result", .str "sent-id")])
      "result" = some (.str "sent-id") :=
  ⟨rfl, rfl, rfl⟩

/-- C5 (amended: the wrapper key is `result`, not `payload`): for a recognized
service and action, a client return value v is wrapped as
`{status: success, result: v}` by the dispatching router. -/
theorem success_wrapped_under_result_key (env : Env) (sub : SubRequest)
    (st : St) (dkvs : List (String × JValue)) (v : JValue)
    (hclient : env.gmail_create_item (jLookupD dkvs "to" (.str ""))
      (jLookupD dkvs "subject" (.str "")) (jLookupD dkvs "body" (.str "")) = .ok v) :
    route env sub st (.obj [("service", .str "email"), ("action", .str "send"),
      ("details", .obj dkvs)]) = (.ok (successResult v), st) := by
  simp only [jLookupD] at hclient
  simp [route, pyGetItem, jLookup, jLookupD, isStrEq, handle_email_request, pyGet,
    bind, Except.bind, Functor.map, Except.map, pure, Except.pure, hclient]

/-- C5 witness: the specification scenario request wraps the sent-message id
under `result`. -/
theorem success_wrapped_under_result_key_witness :
    route envC5 (process_natural_language_request envC5 0) st0 intentC5 =
      (.ok (successResult (.str "sent-id")), st0) :=
  success_wrapped_under_result_key envC5 (process_natural_language_request envC5 0)
    st0 [("to", .str "team@company.com"), ("subject", .str "Kickoff"),
      ("body", .str "See you Monday")] (.str "sent-id") rfl

/-- C7: an unparseable decomposition reply is terminal: the planner returns
`{status: error}` whose message starts with (hence contains)
`Multi-service request processing failed`; no fallback is attempted. -/
theorem decomposition_parse_failure_terminal (env : Env) (sub : SubRequest)
    (st st1 : St) (intent details : JValue) (b : String)
    (hdet : pyGet intent "details" (.str "") = .ok details)
    (hgen : generate_response env st (breakdownPrompt details)
      (some breakdownSystemMessage) = (.ok b, st1))
    (hparse : env.loads b = none) :
    handle_multi_service_request env sub st intent =
      (.ok (errResult ("Multi-service request processing failed" ++ ": " ++
        env.loads_err b)), st1) := by
  simp only [handle_multi_service_request, hdet, hgen, hparse]
  rfl

/-- C7 witness: an `oops` decomposition reply produces the terminal error. -/
theorem decomposition_parse_failure_terminal_witness :
    handle_multi_service_request envC7 (process_natural_language_request envC7 0)
      st0 intentC7 =
      (.ok (errResult ("Multi-service request processing failed" ++ ": " ++
        "Expecting value: line 1 column 1 (char 0)")),
       ⟨"llama2-70b-4096",
        ⟨[⟨"user", breakdownPrompt (.str "do x")⟩, ⟨"assistant", "oops"⟩], 10⟩⟩) :=
  decomposition_parse_failure_terminal envC7 (process_natural_language_request envC7 0)
    st0
    ⟨"llama2-70b-4096",
     ⟨[⟨"user", breakdownPrompt (.str "do x")⟩, ⟨"assistant", "oops"⟩], 10⟩⟩
    intentC7 (.str "do x") "oops" rfl rfl rfl

/-- C3 counterexample: a decomposition reply that parses successfully as JSON
(here a list) still yields a bundle with top-level status `error`, so a
successful parse of the decomposition alone does not make the bundle
`success` as the claim states. -/
theorem bundle_parse_success_not_sufficient :
    envC3bad.loads "[1, 2]" = some (.arr [.num 1, .num 2]) ∧
    bundleStatus (handle_multi_service_request envC3bad
      (process_natural_language_request envC3bad 1) st0 intentC3) =
      some (.str "error") ∧
    ("error" : String) ≠ "success" :=
  ⟨rfl, rfl, by decide⟩

/-- C3 (amended: the decomposition must parse as a JSON object whose values
are themselves objects): then the bundle carries top-level status `success`
and one sub-result per decomposed service in order, independent of whether
individual sub-results carry `error`. -/
theorem bundle_partial_failure_semantics (env : Env) (fuel : Nat)
    (st st1 : St) (intent details : JValue) (b : String)
    (kvs : List (String × JValue))
    (hdet : pyGet intent "details" (.str "") = .ok details)
    (hgen : generate_response env st (breakdownPrompt details)
      (some breakdownSystemMessage) = (.ok b, st1))
    (hparse : env.loads b = some (.obj kvs))
    (hobjs : allValuesObj kvs = true) :
    bundleStatus (handle_multi_service_request env
      (process_natural_language_request env fuel) st intent) =
      some (.str "success") ∧
    bundleResultKeys (handle_multi_service_request env
      (process_natural_language_request env fuel) st intent) =
      some (kvs.map Prod.fst) := by
  obtain ⟨res, st2, heq, hmap⟩ := runServices_ok env
    (process_natural_language_request env fuel)
    (fun s r => process_never_propagates env fuel s r) kvs hobjs st1 []
  have hrun : handle_multi_service_request env
      (process_natural_language_request env fuel) st intent =
      (.ok (.obj [("status", .str "success"), ("results", .obj res)]), st2) := by
    simp only [handle_multi_service_request, hdet, hgen, hparse, pyItems, heq]
  rw [hrun]
  refine ⟨rfl, ?_⟩
  simp [bundleResultKeys, jLookupObj, jLookup, hmap]

/-- C3 witness: a two-service decomposition where the mail client succeeds and
the calendar client raises still yields a `success` bundle with both
sub-results, the calendar one carrying `error`. -/
theorem bundle_partial_failure_semantics_witness :
    bundleStatus (handle_multi_service_request envC3
      (process_natural_language_request envC3 2) st0 intentC3) =
      some (.str "success") ∧
    bundleResultKeys (handle_multi_service_request envC3
      (process_natural_language_request envC3 2) st0 intentC3) =
      some ["email", "calendar"] ∧
    subResultStatus (handle_multi_service_request envC3
      (process_natural_language_request envC3 2) st0 intentC3) "email" =
      some (.str "success") ∧
    subResultStatus (handle_multi_service_request envC3
      (process_natural_language_request envC3 2) st0 intentC3) "calendar" =
      some (.str "error") :=
  ⟨(bundle_partial_failure_semantics envC3 2 st0
      ⟨"llama2-70b-4096",
       ⟨[⟨"user", breakdownPrompt (.str "book and email")⟩, ⟨"assistant", "B"⟩], 10⟩⟩
      intentC3 (.str "book and email") "B"
      [("email", .obj [("action", .str "send"), ("details", .obj [("to", .str "a")])]),
       ("calendar", .obj [("action", .str "create"), ("details", .obj [])])]
      rfl rfl rfl rfl).1,
   (bundle_partial_failure_semantics envC3 2 st0
      ⟨"llama2-70b-4096",
       ⟨[⟨"user", breakdownPrompt (.str "book and email")⟩, ⟨"assistant", "B"⟩], 10⟩⟩
      intentC3 (.str "book and email") "B"
      [("email", .obj [("action", .str "send"), ("details", .obj [("to", .str "a")])]),
       ("calendar", .obj [("action", .str "create"), ("details", .obj [])])]
      rfl rfl rfl rfl).2,
   rfl, rfl⟩

/-- C6 counterexample: in the re-entry scenario the sub-result recorded for
`email` has status `error` (the re-extraction of the serialized sub-intent
fell back to a multi intent), while dispatching the constructed fresh intent
directly through the Service Router yields status `success`: the planner does
not invoke the router directly on the constructed intent. -/
theorem planner_not_direct_dispatch :
    subResultStatus (handle_multi_service_request envC6
      (process_natural_language_request envC6 2) st0 intentC6) "email" =
      some (.str "error") ∧
    bundleStatus (route envC6 (process_natural_language_request envC6 2) st0
      (freshIntent "email" (.str "send") (.obj [("to", .str "x")]))) =
      some (.str "success") ∧
    ("error" : String) ≠ "success" :=
  ⟨rfl, rfl, by decide⟩

/-- C6 (amended): for each decomposed entry the planner constructs the fresh
intent `{service, action, details}`, serializes it with `json.dumps`, and
re-invokes the full entry point `process_natural_language_request` on the
serialized text - so a second intent extraction runs on the sub-intent - and
the recorded sub-result is exactly that entry point's output (stated for a
single-entry decomposition). -/
theorem planner_reenters_entry_point (env : Env) (fuel : Nat)
    (st st1 st2 : St) (intent details : JValue) (b service : String)
    (sakvs : List (String × JValue)) (r : JValue)
    (hdet : pyGet intent "details" (.str "") = .ok details)
    (hgen : generate_response env st (breakdownPrompt details)
      (some breakdownSystemMessage) = (.ok b, st1))
    (hparse : env.loads b = some (.obj [(service, .obj sakvs)]))
    (hsub : process_natural_language_request env fuel st1
      (env.dumps (freshIntent service (jLookupD sakvs "action" .null)
        (jLookupD sakvs "details" (.obj [])))) = (.ok r, st2)) :
    handle_multi_service_request env (process_natural_language_request env fuel)
      st intent =
      (.ok (.obj [("status", .str "success"),
        ("results", .obj [(service, r)])]), st2) := by
  simp only [handle_multi_service_request, hdet, hgen, hparse, pyItems]
  simp only [runServices, pyGet, hsub, List.nil_append]

/-- C6 witness: the single-entry decomposition records exactly the entry
point's output for the serialized sub-intent (here an error result produced
by the second extraction falling back to a multi intent). -/
theorem planner_reenters_entry_point_witness :
    handle_multi_service_request envC6 (process_natural_language_request envC6 2)
      st0 intentC6 =
      (.ok (.obj [("status", .str "success"),
        ("results", .obj [("email", errResult
          ("Multi-service request processing failed: Expecting value: line 1 column 1 (char 0)"))])]),
       ⟨"llama2-70b-4096",
        ⟨[⟨"user", breakdownPrompt (.str "do stuff")⟩, ⟨"assistant", "B"⟩,
          ⟨"user", "SUB"⟩, ⟨"assistant", "garbage"⟩,
          ⟨"user", breakdownPrompt (.str "SUB")⟩, ⟨"assistant", "garbage"⟩], 10⟩⟩) :=
  planner_reenters_entry_point envC6 2 st0
    ⟨"llama2-70b-4096",
     ⟨[⟨"user", breakdownPrompt (.str "do stuff")⟩, ⟨"assistant", "B"⟩], 10⟩⟩
    ⟨"llama2-70b-4096",
     ⟨[⟨"user", breakdownPrompt (.str "do stuff")⟩, ⟨"assistant", "B"⟩,
       ⟨"user", "SUB"⟩, ⟨"assistant", "garbage"⟩,
       ⟨"user", breakdownPrompt (.str "SUB")⟩, ⟨"assistant", "garbage"⟩], 10⟩⟩
    intentC6 (.str "do stuff") "B" "email"
    [("action", .str "send"), ("details", .obj [("to", .str "x")])]
    (errResult
      ("Multi-service request processing failed: Expecting value: line 1 column 1 (char 0)"))
    rfl rfl rfl rfl
